import Mathlib

/-!
Verification of `sora_runner.py` (Loischsiy/ChatGavnoAI).

The script drives a browser through one linear workflow: launch, authenticate,
type a prompt, click the submission button, wait for the generation spinner to
disappear, and report via stdout markers (`WAITING`, `DONE`) and exit codes.

We shallowly embed every function of the script over an explicit environment
describing the outcomes of the browser-side operations it performs (whether an
element becomes clickable and at what time, whether a driver call raises, what
the page title is at each poll instant, ...).  Fallible Python operations are
modelled as `Except Unit` values supplied by the environment; `try/except`
blocks become `match` on those values.  `WebDriverWait(d, timeout).until(cond)`
is modelled by `webdriver_wait_until timeout condAt`, where `condAt` is the
instant at which the waited-for condition becomes true (`none` = never):
the wait succeeds iff the condition becomes true within the timeout.
-/

namespace SoraRunner

/-- Result of `WebDriverWait(driver, timeout).until(cond)`: the environment
tells at which instant `condAt` the condition first holds (`none` = never);
the wait returns normally iff that instant is within the timeout, and raises
`TimeoutException` (modelled as `false`) otherwise. -/
def webdriver_wait_until (timeout : Nat) (condAt : Option Nat) : Bool :=
  match condAt with
  | some t => decide (t ≤ timeout)
  | none => false

/-! ## safe_get (sora_runner.py lines 49-55) -/

/-- Environment of one `safe_get` call: whether `driver.get(url)` raises, and
the instant at which `document.readyState == "complete"` first holds. -/
structure NavEnv where
  getRaises : Bool
  readyAt : Option Nat
  deriving DecidableEq, Repr

/-- Body of `safe_get` before the `except Exception` handler:
`driver.get(url)` then a 10-unit `WebDriverWait` for document-ready.
Any failure is an exception (`Except.error`). -/
def safe_get_body (e : NavEnv) : Except Unit Bool :=
  if e.getRaises then Except.error ()
  else if webdriver_wait_until 10 e.readyAt then Except.ok true
  else Except.error ()

/-- `safe_get(driver, url)`: the `try/except Exception: return False` wrapper
around `safe_get_body` — every exception is converted to `false`. -/
def safe_get (e : NavEnv) : Bool :=
  match safe_get_body e with
  | Except.ok b => b
  | Except.error _ => false

/-! ## click_button_robustly (lines 58-93) -/

/-- Outcome of the native `button.click()` call: success, an
`ElementClickInterceptedException`, or any other exception. -/
inductive NativeClick where
  | ok
  | intercepted
  | raised
  deriving DecidableEq, Repr

/-- Environment of one `click_button_robustly` call: one field per
browser-side operation the function attempts, in source order. -/
structure ClickEnv where
  /-- `execute_script(scrollIntoView, button)` raises (caught by the outer
  `except`, making the whole call return `False`). -/
  scrollRaises : Bool
  /-- `ActionChains(driver).move_to_element(button).perform()` raises
  (caught and ignored). -/
  moveRaises : Bool
  /-- outcome of the native `button.click()`. -/
  nativeClick : NativeClick
  /-- `ActionChains(driver).move_to_element(button).click().perform()`
  succeeds. -/
  moveClickOk : Bool
  /-- `execute_script("arguments[0].click()", button)` succeeds. -/
  jsClickOk : Bool
  /-- synthetic `MouseEvent` dispatch succeeds. -/
  dispatchOk : Bool
  deriving DecidableEq, Repr

/-- `click_button_robustly(driver, button)`: scroll into view (outer try),
hover (errors ignored), then native click, pointer-move-then-click, scripted
click, and synthetic event dispatch, in order, returning `true` on the first
success and `false` if all fail or the scroll raised. -/
def click_button_robustly (e : ClickEnv) : Bool :=
  if e.scrollRaises then false
  else
    match e.nativeClick with
    | NativeClick.ok => true
    | _ =>
      if e.moveClickOk then true
      else if e.jsClickOk then true
      else if e.dispatchOk then true
      else false

/-! ## ensure_auth (lines 96-112) -/

/-- Boolean substring test on character lists, mirroring the Python
`needle in haystack` membership test on strings. -/
def list_contains_sub (needle : List Char) : List Char → Bool
  | [] => needle.isEmpty
  | c :: cs => needle.isPrefixOf (c :: cs) || list_contains_sub needle cs

/-- The login page-title signal of `ensure_auth`:
`"ChatGPT" in (driver.title or "")`. -/
def login_title_signal (title : Option String) : Bool :=
  list_contains_sub "ChatGPT".data (title.getD "").data

/-- The two URLs `ensure_auth` navigates to: the Sora base URL (the target
application) and the ChatGPT URL (the identity provider). -/
inductive NavTarget where
  | sora
  | chat
  deriving DecidableEq, Repr

/-- Environment of one `ensure_auth` call: outcomes of the driver operations
it performs, in source order. -/
structure AuthEnv where
  /-- first `safe_get` of the Sora base URL (result discarded by the source). -/
  soraNav : NavEnv
  /-- `driver.find_elements(By.TAG_NAME, "img")`: the number of image
  elements found, or an exception from the driver. -/
  findImgs : Except Unit Nat
  /-- `safe_get` of the ChatGPT URL (result discarded by the source). -/
  chatNav : NavEnv
  /-- `driver.title` read at instant `t` of the polling loop: the page title
  (`none` models Python `None`), or an exception from the driver. -/
  titleAt : Nat → Except Unit (Option String)
  /-- final `safe_get` of the Sora base URL (result discarded). -/
  soraNav2 : NavEnv

/-- What `ensure_auth` did (the Python function returns `None`; we record the
navigations it performed and, when the login poll ran, whether it detected
the login title signal before its deadline). -/
structure AuthResult where
  trace : List NavTarget
  loginDetected : Option Bool
  deriving DecidableEq, Repr

/-- The login polling loop of `ensure_auth`:
`deadline = time.time() + 120` then `while time.time() < deadline:`
`sleep(3)` and break once the title signal holds, with time starting at 0.
Returns `true` iff the loop broke on the title signal; propagates any
exception raised by reading `driver.title`. -/
def auth_poll (titleAt : Nat → Except Unit (Option String)) (t : Nat) :
    Except Unit Bool :=
  if _h : t < 120 then
    match titleAt (t + 3) with
    | Except.error u => Except.error u
    | Except.ok s =>
      if login_title_signal s then Except.ok true
      else auth_poll titleAt (t + 3)
  else Except.ok false
termination_by 120 - t
decreasing_by omega

/-- `ensure_auth(driver)`: visit the Sora base URL; if any `img` element is
present, return.  Otherwise visit the ChatGPT URL, run the 120-unit login
poll, and visit the Sora base URL again.  Exceptions from `find_elements`
or `driver.title` propagate to the caller (nothing catches them). -/
def ensure_auth (e : AuthEnv) : Except Unit AuthResult :=
  let _ := safe_get e.soraNav
  match e.findImgs with
  | Except.error u => Except.error u
  | Except.ok n =>
    if n ≠ 0 then Except.ok ⟨[NavTarget.sora], none⟩
    else
      let _ := safe_get e.chatNav
      match auth_poll e.titleAt 0 with
      | Except.error u => Except.error u
      | Except.ok b =>
        let _ := safe_get e.soraNav2
        Except.ok ⟨[NavTarget.sora, NavTarget.chat, NavTarget.sora], some b⟩

/-! ## Session directory resolution (lines 179-181) -/

/-- `Path(args.session_dir or (base_dir / ".chrome-session"))` from `main`:
Python `or` falls through on `None` and on the empty string. -/
def resolve_session_dir (arg : Option String) (base_dir : String) : String :=
  match arg with
  | some s => if s = "" then base_dir ++ "/" ++ ".chrome-session" else s
  | none => base_dir ++ "/" ++ ".chrome-session"

/-! ## type_prompt (lines 115-129) -/

/-- Environment of one `type_prompt` call. -/
structure PromptEnv where
  /-- instant at which the prompt textarea becomes clickable
  (`none` = never). -/
  clickableAt : Option Nat
  /-- `textarea.clear()` raises (caught by `except Exception`). -/
  clearRaises : Bool
  /-- `textarea.send_keys(prompt)` raises (caught by `except Exception`). -/
  sendKeysRaises : Bool
  deriving DecidableEq, Repr

/-- `type_prompt(driver, prompt, timeout=20)`: wait for the textarea to be
clickable, clear it, send the prompt.  `TimeoutException` and any other
exception are converted to `false`. -/
def type_prompt (e : PromptEnv) (timeout : Nat := 20) : Bool :=
  if !webdriver_wait_until timeout e.clickableAt then false
  else if e.clearRaises then false
  else if e.sendKeysRaises then false
  else true

/-! ## click_create (lines 132-144) -/

/-- Environment of one `click_create` call. -/
structure CreateEnv where
  /-- instant at which the `Create video` button becomes clickable
  (`none` = never). -/
  clickableAt : Option Nat
  /-- environment of the delegated `click_button_robustly` call. -/
  click : ClickEnv
  deriving DecidableEq, Repr

/-- `click_create(driver, timeout=20)`: wait for the `Create video` button to
be clickable, then delegate to `click_button_robustly`.  `TimeoutException`
and any other exception are converted to `false`. -/
def click_create (e : CreateEnv) (timeout : Nat := 20) : Bool :=
  if !webdriver_wait_until timeout e.clickableAt then false
  else click_button_robustly e.click

/-! ## wait_generation_complete (lines 147-165) -/

/-- Environment of one `wait_generation_complete` call. -/
structure GenEnv where
  /-- instant at which the spinner appears (`none` = never); the 60-unit
  appearance wait's `TimeoutException` is swallowed (`pass`). -/
  appearAt : Option Nat
  /-- the appearance wait raises a non-timeout exception (caught by the
  outer `except Exception`). -/
  appearRaises : Bool
  /-- instant at which the spinner becomes invisible/absent
  (`none` = never). -/
  goneAt : Option Nat
  /-- the invisibility wait raises a non-timeout exception. -/
  goneRaises : Bool
  deriving DecidableEq, Repr

/-- `wait_generation_complete(driver, index=0, timeout=600)`: wait up to 60
units for the spinner to appear (proceeding anyway on timeout), then wait up
to `timeout` units for it to disappear.  Returns `true` on disappearance,
`false` on timeout or any other exception. -/
def wait_generation_complete (e : GenEnv) (index : Nat := 0)
    (timeout : Nat := 600) : Bool :=
  let _ := index
  let _ := webdriver_wait_until 60 e.appearAt
  if e.appearRaises then false
  else if e.goneRaises then false
  else webdriver_wait_until timeout e.goneAt

/-! ## main (lines 176-209) -/

/-- How the process run ends: `sys.exit(main())` with `main`'s return value,
or an exception propagating out of `main` (its `finally` block having run). -/
inductive Termination where
  | exitCode (n : Nat)
  | uncaught
  deriving DecidableEq, Repr

/-- Observable outcome of one run of `main`: the lines printed to stdout in
order, how the process terminates, and how many times `driver.quit()` was
invoked. -/
structure RunResult where
  stdout : List String
  term : Termination
  quitCalls : Nat
  deriving DecidableEq, Repr

/-- Environment of one run of `main` (after argument parsing succeeded). -/
structure RunEnv where
  /-- `create_driver` succeeds (otherwise `main` returns 1 immediately,
  before the `try/finally` that owns the driver). -/
  launchOk : Bool
  /-- environment of the `ensure_auth` call. -/
  auth : AuthEnv
  /-- environment of the `type_prompt` call. -/
  prompt : PromptEnv
  /-- environment of the `click_create` call. -/
  create : CreateEnv
  /-- environment of the `wait_generation_complete` call. -/
  gen : GenEnv
  /-- `driver.quit()` raises (swallowed by the bare `except` in the
  `finally` block). -/
  quitRaises : Bool

/-- `main()` after argument parsing: launch the driver (exit code 1 on
failure), then inside `try ... finally driver.quit()`: `ensure_auth` (an
escaping exception is not caught — the run terminates `uncaught`),
`type_prompt` (code 2 on failure), `click_create` (code 3), print
`WAITING`, `wait_generation_complete` (code 4), print `DONE`, return 0.
The `finally` block always calls `driver.quit()` exactly once, swallowing
any exception it raises. -/
def main (e : RunEnv) : RunResult :=
  if !e.launchOk then ⟨[], Termination.exitCode 1, 0⟩
  else
    match ensure_auth e.auth with
    | Except.error _ => ⟨[], Termination.uncaught, 1⟩
    | Except.ok _ =>
      if !type_prompt e.prompt then ⟨[], Termination.exitCode 2, 1⟩
      else if !click_create e.create then ⟨[], Termination.exitCode 3, 1⟩
      else if !wait_generation_complete e.gen then
        ⟨["WAITING"], Termination.exitCode 4, 1⟩
      else ⟨["WAITING", "DONE"], Termination.exitCode 0, 1⟩

/-! ## Sample environments (concrete runs used to instantiate theorems) -/

/-- A navigation on which `driver.get` succeeds and the page is ready at
instant 1. -/
def nav_ok : NavEnv := ⟨false, some 1⟩

/-- A click environment where the native click succeeds at once. -/
def click_env_native_ok : ClickEnv :=
  ⟨false, false, NativeClick.ok, false, false, false⟩

/-- An authentication environment where the initial visit finds one image. -/
def auth_env_images : AuthEnv :=
  ⟨nav_ok, Except.ok 1, nav_ok, fun _ => Except.ok (some ""), nav_ok⟩

/-- An authentication environment where `find_elements` raises. -/
def auth_env_raising : AuthEnv :=
  ⟨nav_ok, Except.error (), nav_ok, fun _ => Except.ok none, nav_ok⟩

/-- A prompt environment where the textarea is clickable at instant 0. -/
def prompt_env_ok : PromptEnv := ⟨some 0, false, false⟩

/-- A prompt environment where the textarea never becomes clickable. -/
def prompt_env_stuck : PromptEnv := ⟨none, false, false⟩

/-- A submission environment where the button is clickable at instant 0. -/
def create_env_ok : CreateEnv := ⟨some 0, click_env_native_ok⟩

/-- A submission environment where the button never becomes clickable. -/
def create_env_stuck : CreateEnv := ⟨none, click_env_native_ok⟩

/-- A generation environment where the spinner appears at 0 and is gone
at 0. -/
def gen_env_ok : GenEnv := ⟨some 0, false, some 0, false⟩

/-- A generation environment where the spinner never disappears. -/
def gen_env_stuck : GenEnv := ⟨some 0, false, none, false⟩

/-- A fully successful run environment. -/
def run_env_ok : RunEnv :=
  ⟨true, auth_env_images, prompt_env_ok, create_env_ok, gen_env_ok, false⟩

/-! ## Theorems -/

/-- Claim C6: for every target element whose native click raises (any
exception, intercepted or otherwise) but whose scripted (JavaScript) click
succeeds, `click_button_robustly` still returns `true`. -/
theorem click_button_robustly_js_fallback (e : ClickEnv)
    (hscroll : e.scrollRaises = false)
    (hnative : e.nativeClick ≠ NativeClick.ok)
    (hjs : e.jsClickOk = true) :
    click_button_robustly e = true := by
  unfold click_button_robustly
  rw [hscroll]
  cases h : e.nativeClick with
  | ok => exact absurd h hnative
  | intercepted => simp [hjs]
  | raised => simp [hjs]

/-- Witness for C6: a concrete element whose native click raises, whose
pointer-move click also fails, and whose scripted click succeeds. -/
theorem click_button_robustly_js_fallback_witness :
    click_button_robustly
      ⟨false, false, NativeClick.raised, false, true, false⟩ = true :=
  click_button_robustly_js_fallback
    ⟨false, false, NativeClick.raised, false, true, false⟩
    rfl (by decide) rfl

/-- Claim C7: `safe_get` never propagates an exception — it is a total
Boolean-valued function — and it returns `true` exactly when the navigation
call does not raise and the document-ready signal arrives within the 10-unit
wait; in every other case the failure is converted to `false`. -/
theorem safe_get_total_and_bounded (e : NavEnv) :
    (safe_get e = true ↔
      e.getRaises = false ∧ ∃ t, e.readyAt = some t ∧ t ≤ 10) ∧
    (safe_get e = true ∨ safe_get e = false) := by
  constructor
  · unfold safe_get safe_get_body webdriver_wait_until
    cases hg : e.getRaises with
    | true => simp
    | false =>
      cases hr : e.readyAt with
      | none => simp
      | some t =>
        by_cases ht : t ≤ 10 <;> simp [ht]
  · cases h : safe_get e with
    | true => exact Or.inl rfl
    | false => exact Or.inr rfl

/-- Characterisation of the login polling loop when reading the title never
raises: it returns normally, and it reports `true` exactly when the title
signal holds at one of the instants it samples, which are `t + 3`, `t + 6`,
... while the sleep start time stays below the 120-unit deadline. -/
theorem auth_poll_pure (titles : Nat → Option String) :
    ∀ k t, 120 ≤ t + 3 * k →
      ∃ b, auth_poll (fun u => Except.ok (titles u)) t = Except.ok b ∧
        (b = true ↔ ∃ i, t + 3 * i < 120 ∧
          login_title_signal (titles (t + 3 * i + 3)) = true) := by
  intro k
  induction k with
  | zero =>
    intro t ht
    refine ⟨false, ?_, ?_⟩
    · unfold auth_poll
      rw [dif_neg (by omega)]
    · simp only [Bool.false_eq_true, false_iff]
      rintro ⟨i, hi, _⟩
      omega
  | succ k ih =>
    intro t ht
    by_cases h : t < 120
    · have step : auth_poll (fun u => Except.ok (titles u)) t =
          (if login_title_signal (titles (t + 3)) then Except.ok true
           else auth_poll (fun u => Except.ok (titles u)) (t + 3)) := by
        conv_lhs => rw [auth_poll]
        rw [dif_pos h]
      by_cases hsig : login_title_signal (titles (t + 3)) = true
      · refine ⟨true, ?_, ?_⟩
        · rw [step, if_pos hsig]
        · simp only [true_iff]
          exact ⟨0, by omega, by simpa using hsig⟩
      · obtain ⟨b, hb, hiff⟩ := ih (t + 3) (by omega)
        refine ⟨b, ?_, ?_⟩
        · rw [step, if_neg hsig]
          exact hb
        · rw [hiff]
          constructor
          · rintro ⟨i, hlt, hs⟩
            refine ⟨i + 1, by omega, ?_⟩
            have harg : t + 3 + 3 * i + 3 = t + 3 * (i + 1) + 3 := by ring
            rw [harg] at hs
            exact hs
          · rintro ⟨i, hlt, hs⟩
            cases i with
            | zero =>
              exact absurd (by simpa using hs) hsig
            | succ j =>
              refine ⟨j, by omega, ?_⟩
              have harg : t + 3 * (j + 1) + 3 = t + 3 + 3 * j + 3 := by ring
              rw [harg] at hs
              exact hs
    · refine ⟨false, ?_, ?_⟩
      · unfold auth_poll
        rw [dif_neg h]
      · simp only [Bool.false_eq_true, false_iff]
        rintro ⟨i, hi, _⟩
        omega

/-- Claim C8: `ensure_auth` returns immediately (visiting only the target
application) when at least one image element is present after the initial
visit; otherwise it navigates to the identity provider, polls the page title
at instants 3, 6, ..., 120 (every 3 units, deadline 120, i.e. 40 samples)
for the login signal, then returns to the target application. -/
theorem ensure_auth_spec (e : AuthEnv) (imgs : Nat)
    (titles : Nat → Option String)
    (hImgs : e.findImgs = Except.ok imgs)
    (hTitle : ∀ t, e.titleAt t = Except.ok (titles t)) :
    (0 < imgs → ensure_auth e = Except.ok ⟨[NavTarget.sora], none⟩) ∧
    (imgs = 0 → ∃ b, ensure_auth e =
        Except.ok ⟨[NavTarget.sora, NavTarget.chat, NavTarget.sora], some b⟩ ∧
      (b = true ↔ ∃ i, i < 40 ∧
        login_title_signal (titles (3 * i + 3)) = true)) := by
  have hfun : e.titleAt = fun u => Except.ok (titles u) := funext hTitle
  constructor
  · intro hpos
    unfold ensure_auth
    rw [hImgs]
    simp only
    rw [if_pos (by omega)]
  · intro hzero
    subst hzero
    obtain ⟨b, hb, hiff⟩ := auth_poll_pure titles 40 0 (by omega)
    refine ⟨b, ?_, ?_⟩
    · unfold ensure_auth
      rw [hImgs]
      simp only
      rw [if_neg (by omega), hfun, hb]
    · rw [hiff]
      constructor
      · rintro ⟨i, hlt, hs⟩
        exact ⟨i, by omega, by simpa using hs⟩
      · rintro ⟨i, hlt, hs⟩
        exact ⟨i, by omega, by simpa using hs⟩

/-- Witness for C8: a concrete environment with one image present (the
authenticated branch), and a concrete environment with no images whose title
carries the signal at the first sample. -/
theorem ensure_auth_spec_witness :
    ensure_auth ⟨⟨false, some 1⟩, Except.ok 1, ⟨false, some 1⟩,
        (fun _ => Except.ok (some "sora")), ⟨false, some 1⟩⟩ =
      Except.ok ⟨[NavTarget.sora], none⟩ :=
  (ensure_auth_spec _ 1 (fun _ => some "sora") rfl (fun _ => rfl)).1
    (by decide)

/-- Witness for C7: the characterisation evaluated on a concrete navigation
that succeeds with the ready signal at instant 1. -/
theorem safe_get_total_and_bounded_witness :
    (safe_get ⟨false, some 1⟩ = true ↔
      (⟨false, some 1⟩ : NavEnv).getRaises = false ∧
      ∃ t, (⟨false, some 1⟩ : NavEnv).readyAt = some t ∧ t ≤ 10) ∧
    (safe_get ⟨false, some 1⟩ = true ∨ safe_get ⟨false, some 1⟩ = false) :=
  safe_get_total_and_bounded ⟨false, some 1⟩

/-- Claim C9: when `--session-dir` is not supplied, the profile directory is
`.chrome-session` beside the program file (under the directory of the script). -/
theorem resolve_session_dir_default (base_dir : String) :
    resolve_session_dir none base_dir = base_dir ++ "/.chrome-session" := by
  show base_dir ++ "/" ++ ".chrome-session" = base_dir ++ "/.chrome-session"
  rw [String.append_assoc]
  congr 1

/-- Witness for C9: the default resolved under a concrete base directory. -/
theorem resolve_session_dir_default_witness :
    resolve_session_dir none "/app" = "/app" ++ "/.chrome-session" :=
  resolve_session_dir_default "/app"

/-- Claim C1: in every run where launch, authentication, prompt entry,
submission and the generation wait all succeed, the process writes exactly
the lines `WAITING` then `DONE` to stdout, in that order, and exits with
code 0. -/
theorem main_success_stdout_exit0 (e : RunEnv) (r : AuthResult)
    (hlaunch : e.launchOk = true)
    (hauth : ensure_auth e.auth = Except.ok r)
    (hprompt : type_prompt e.prompt = true)
    (hcreate : click_create e.create = true)
    (hgen : wait_generation_complete e.gen = true) :
    (main e).stdout = ["WAITING", "DONE"] ∧
    (main e).term = Termination.exitCode 0 := by
  unfold main
  rw [hlaunch, hauth]
  simp [hprompt, hcreate, hgen]

/-- Witness for C1: the fully successful sample run. -/
theorem main_success_stdout_exit0_witness :
    (main run_env_ok).stdout = ["WAITING", "DONE"] ∧
    (main run_env_ok).term = Termination.exitCode 0 :=
  main_success_stdout_exit0 run_env_ok ⟨[NavTarget.sora], none⟩
    rfl rfl rfl rfl rfl

/-- Claim C2: in every run reaching the generation wait whose loading
indicator never disappears within the 600-unit timeout,
`wait_generation_complete` returns `false`, the process exits with code 4,
and `WAITING` has been printed to stdout (and is the only stdout line). -/
theorem main_gen_timeout_exit4 (e : RunEnv) (r : AuthResult)
    (hlaunch : e.launchOk = true)
    (hauth : ensure_auth e.auth = Except.ok r)
    (hprompt : type_prompt e.prompt = true)
    (hcreate : click_create e.create = true)
    (hstuck : webdriver_wait_until 600 e.gen.goneAt = false) :
    wait_generation_complete e.gen = false ∧
    (main e).term = Termination.exitCode 4 ∧
    (main e).stdout = ["WAITING"] := by
  have hg : wait_generation_complete e.gen = false := by
    unfold wait_generation_complete
    rw [hstuck]
    simp
  refine ⟨hg, ?_, ?_⟩ <;>
  · unfold main
    rw [hlaunch, hauth]
    simp [hprompt, hcreate, hg]

/-- Witness for C2: the successful sample run with a spinner that never
disappears. -/
theorem main_gen_timeout_exit4_witness :
    wait_generation_complete gen_env_stuck = false ∧
    (main ⟨true, auth_env_images, prompt_env_ok, create_env_ok,
        gen_env_stuck, false⟩).term = Termination.exitCode 4 ∧
    (main ⟨true, auth_env_images, prompt_env_ok, create_env_ok,
        gen_env_stuck, false⟩).stdout = ["WAITING"] :=
  main_gen_timeout_exit4
    ⟨true, auth_env_images, prompt_env_ok, create_env_ok,
      gen_env_stuck, false⟩
    ⟨[NavTarget.sora], none⟩ rfl rfl rfl rfl rfl

/-- Claim C3: in every run reaching prompt entry whose textarea never
becomes clickable within the 20-unit timeout, `type_prompt` returns
`false`, the process exits with code 2, and stdout is empty (neither
`WAITING` nor `DONE` is printed). -/
theorem main_prompt_timeout_exit2 (e : RunEnv) (r : AuthResult)
    (hlaunch : e.launchOk = true)
    (hauth : ensure_auth e.auth = Except.ok r)
    (hstuck : webdriver_wait_until 20 e.prompt.clickableAt = false) :
    type_prompt e.prompt = false ∧
    (main e).term = Termination.exitCode 2 ∧
    (main e).stdout = [] := by
  have hp : type_prompt e.prompt = false := by
    unfold type_prompt
    rw [hstuck]
    rfl
  refine ⟨hp, ?_, ?_⟩ <;>
  · unfold main
    rw [hlaunch, hauth]
    simp [hp]

/-- Witness for C3: a run whose textarea never becomes clickable. -/
theorem main_prompt_timeout_exit2_witness :
    type_prompt prompt_env_stuck = false ∧
    (main ⟨true, auth_env_images, prompt_env_stuck, create_env_ok,
        gen_env_ok, false⟩).term = Termination.exitCode 2 ∧
    (main ⟨true, auth_env_images, prompt_env_stuck, create_env_ok,
        gen_env_ok, false⟩).stdout = [] :=
  main_prompt_timeout_exit2
    ⟨true, auth_env_images, prompt_env_stuck, create_env_ok,
      gen_env_ok, false⟩
    ⟨[NavTarget.sora], none⟩ rfl rfl rfl

/-- Claim C4: in every run reaching submission whose `Create video` button
never becomes clickable within the 20-unit timeout, `click_create` returns
`false` and the process exits with code 3. -/
theorem main_create_timeout_exit3 (e : RunEnv) (r : AuthResult)
    (hlaunch : e.launchOk = true)
    (hauth : ensure_auth e.auth = Except.ok r)
    (hprompt : type_prompt e.prompt = true)
    (hstuck : webdriver_wait_until 20 e.create.clickableAt = false) :
    click_create e.create = false ∧
    (main e).term = Termination.exitCode 3 := by
  have hc : click_create e.create = false := by
    unfold click_create
    rw [hstuck]
    rfl
  refine ⟨hc, ?_⟩
  unfold main
  rw [hlaunch, hauth]
  simp [hprompt, hc]

/-- Witness for C4: a run whose submission button never becomes
clickable. -/
theorem main_create_timeout_exit3_witness :
    click_create create_env_stuck = false ∧
    (main ⟨true, auth_env_images, prompt_env_ok, create_env_stuck,
        gen_env_ok, false⟩).term = Termination.exitCode 3 :=
  main_create_timeout_exit3
    ⟨true, auth_env_images, prompt_env_ok, create_env_stuck,
      gen_env_ok, false⟩
    ⟨[NavTarget.sora], none⟩ rfl rfl rfl rfl

/-- Claim C5: whenever the browser session is successfully created,
`driver.quit` is invoked exactly once before the process exits, regardless
of which subsequent step fails or raises. -/
theorem main_quit_exactly_once (e : RunEnv) (hlaunch : e.launchOk = true) :
    (main e).quitCalls = 1 := by
  unfold main
  rw [hlaunch]
  cases h : ensure_auth e.auth with
  | error u => rfl
  | ok r =>
    cases hp : type_prompt e.prompt <;>
      cases hc : click_create e.create <;>
        cases hg : wait_generation_complete e.gen <;>
          simp [hp, hc, hg]

/-- Witness for C5: the successful sample run quits the driver once. -/
theorem main_quit_exactly_once_witness :
    (main run_env_ok).quitCalls = 1 :=
  main_quit_exactly_once run_env_ok rfl

/-- Claim C10: if an exception escapes `ensure_auth`, the top-level workflow
does not catch it: the driver is still quit exactly once by the `finally`
block, but the run terminates via the uncaught exception and not via any
returned exit code. -/
theorem main_auth_exception_uncaught (e : RunEnv) (u : Unit)
    (hlaunch : e.launchOk = true)
    (hauth : ensure_auth e.auth = Except.error u) :
    (main e).term = Termination.uncaught ∧
    (main e).quitCalls = 1 ∧
    ∀ n, (main e).term ≠ Termination.exitCode n := by
  have hm : main e = ⟨[], Termination.uncaught, 1⟩ := by
    unfold main
    rw [hlaunch, hauth]
    rfl
  refine ⟨by rw [hm], by rw [hm], ?_⟩
  intro n
  rw [hm]
  intro hcontra
  exact Termination.noConfusion hcontra

/-- Witness for C10: a run whose `find_elements` call raises inside
`ensure_auth`. -/
theorem main_auth_exception_uncaught_witness :
    (main ⟨true, auth_env_raising, prompt_env_ok, create_env_ok,
        gen_env_ok, false⟩).term = Termination.uncaught ∧
    (main ⟨true, auth_env_raising, prompt_env_ok, create_env_ok,
        gen_env_ok, false⟩).quitCalls = 1 ∧
    ∀ n, (main ⟨true, auth_env_raising, prompt_env_ok, create_env_ok,
        gen_env_ok, false⟩).term ≠ Termination.exitCode n :=
  main_auth_exception_uncaught
    ⟨true, auth_env_raising, prompt_env_ok, create_env_ok,
      gen_env_ok, false⟩
    () rfl rfl

end SoraRunner
